import Mathlib

/-!
# lego-monitor: snapshot comparison and alert detection, formalised

Shallow embedding of the alert-detection core of the lego-monitor
repository (the alert monitor script, here `src/unnamed/part_002`, and
`src/priceTracker.js`).

Modelling conventions:
* Item records hold the numeric results of `parsePrice` / `parsePercent`
  (the source parses the free-text fields with `parseFloat` after regex
  stripping; absence parses to `0`, and the parsers can in principle
  return any decimal number, including negative ones).  The numeric
  fields are therefore taken in `ℚ`.
* The `retired` marker is a `String`; the source treats `undefined`,
  `null` and `""` alike through JS truthiness in every trigger
  condition, so the empty string stands for "absent or empty".
* JS `Map` construction keeps the *last* binding for a duplicated key;
  `mapGet` below models `new Map(sets.map(s => [s.setNumber, s])).get`.
* Presentation-only strings (`message` fields, `toFixed(2)` / `$` / `%`
  formatting of the `details` values) are not modelled; the `details`
  payloads carry the underlying numeric values and the strings the
  source passes through verbatim.
* In `checkNewlyRetiredSets` the source divides by `msrp` without a
  guard; JS produces `Infinity`/`NaN` there while `ℚ` division
  totalises `x / 0 = 0`.  No theorem below depends on the value of that
  detail field when `msrp = 0`, only on whether the alert is emitted.
-/

/-- One item record of an analysis snapshot, after numeric parsing.
`retailPrice` is the reference price (MSRP), `marketPrice` the current
market price read by the alert monitor, `currentMarketPrice` the field
read by the price tracker. -/
structure SetRecord where
  setNumber : String
  name : String
  theme : String
  retailPrice : ℚ
  marketPrice : ℚ
  currentMarketPrice : ℚ
  availability : String
  retired : String
  retirementEstimate : String
  retirementPop : ℚ
  oneYearRetiredValue : ℚ
  annualGrowthFirstYear : ℚ
deriving DecidableEq

/-- The payload of one analysis snapshot (`analysis-data.json`). -/
structure AnalysisData where
  analysisDate : String
  sets : List SetRecord
deriving DecidableEq

/-- Alert details, one constructor per alert type, carrying the numeric
values the source formats into the `details` object. -/
inductive Details where
  | retirement (retiredDate previousAvailability : String)
      (currentPrice msrp : ℚ) (currentROI : Option ℚ) (predictedPop : ℚ)
  | popAchieved (predictedPop actualChange exceededBy currentPrice msrp profit : ℚ)
  | targetReached (targetValue currentPrice msrp roi profit : ℚ)
      (recommendation : String)
  | buyingOpportunity (currentPrice msrp discount savings predictedPop potentialProfit : ℚ)
      (retirementEstimate : String)
  | newlyRetired (retiredDate : String)
      (msrp currentPrice priceChange predictedPop : ℚ) (recommendation : String)
  | roiTarget (targetROI currentROI purchasePrice currentPrice profit : ℚ)
      ( isRetired : Bool) (recommendation : String)
deriving DecidableEq

/-- An alert event as pushed by the check functions. -/
structure Alert where
  type : String
  priority : String
  setNumber : String
  name : String
  details : Details
deriving DecidableEq

/-- `new Map(previous.sets.map(s => [s.setNumber, s])).get(k)`:
the last record with key `k` wins. -/
def mapGet (sets : List SetRecord) (k : String) : Option SetRecord :=
  sets.reverse.find? (fun s => s.setNumber == k)

/-- Loop body of `detectRetirementEvents` for one current record. -/
def retirementRule (prevSets : List SetRecord) (cs : SetRecord) : Option Alert :=
  match mapGet prevSets cs.setNumber with
  | none => none
  | some prevSet =>
    if prevSet.retired = "" ∧ cs.retired ≠ "" then
      let msrp := cs.retailPrice
      let currentPrice := cs.marketPrice
      let roi : Option ℚ :=
        if msrp > 0 then some ((currentPrice - msrp) / msrp * 100) else none
      some { type := "RETIREMENT", priority := "HIGH",
             setNumber := cs.setNumber, name := cs.name,
             details := .retirement cs.retired prevSet.availability
               currentPrice msrp roi cs.retirementPop }
    else none

/-- `detectRetirementEvents(previous, current)`. -/
def detectRetirementEvents (previous current : AnalysisData) : List Alert :=
  current.sets.filterMap (retirementRule previous.sets)

/-- Loop body of `checkRetirementPopAchievement` for one current record:
may emit a POP_ACHIEVED alert followed by a TARGET_REACHED alert. -/
def popRule (prevSets : List SetRecord) (cs : SetRecord) : List Alert :=
  match mapGet prevSets cs.setNumber with
  | none => []
  | some prevSet =>
    if cs.retired = "" then []
    else
      let msrp := cs.retailPrice
      let currentPrice := cs.marketPrice
      let prevPrice := prevSet.marketPrice
      let predictedPop := cs.retirementPop
      let oneYearValue := cs.oneYearRetiredValue
      if msrp = 0 then []
      else
        let actualChange := (currentPrice - msrp) / msrp * 100
        (if actualChange ≥ predictedPop ∧ prevPrice < currentPrice then
          [{ type := "POP_ACHIEVED", priority := "HIGH",
             setNumber := cs.setNumber, name := cs.name,
             details := .popAchieved predictedPop actualChange
               (actualChange - predictedPop) currentPrice msrp
               (currentPrice - msrp) }]
         else []) ++
        (if oneYearValue > 0 ∧ currentPrice ≥ oneYearValue ∧ prevPrice < oneYearValue then
          [{ type := "TARGET_REACHED", priority := "HIGH",
             setNumber := cs.setNumber, name := cs.name,
             details := .targetReached oneYearValue currentPrice msrp
               ((currentPrice - msrp) / msrp * 100) (currentPrice - msrp)
               "Consider selling - target achieved" }]
         else [])

/-- `checkRetirementPopAchievement(previous, current)`. -/
def checkRetirementPopAchievement (previous current : AnalysisData) : List Alert :=
  current.sets.flatMap (popRule previous.sets)

/-- Loop body of `checkBuyingOpportunities` for one current record. -/
def buyRule (prevSets : List SetRecord) (cs : SetRecord) : Option Alert :=
  match mapGet prevSets cs.setNumber with
  | none => none
  | some prevSet =>
    if cs.retired ≠ "" then none
    else
      let msrp := cs.retailPrice
      let currentPrice := cs.marketPrice
      let prevPrice := prevSet.marketPrice
      if msrp = 0 then none
      else if prevPrice ≥ msrp ∧ currentPrice < msrp then
        let discount := (msrp - currentPrice) / msrp * 100
        let predictedPop := cs.retirementPop
        let potentialProfit := msrp * (1 + predictedPop / 100) - currentPrice
        some { type := "BUYING_OPPORTUNITY", priority := "MEDIUM",
               setNumber := cs.setNumber, name := cs.name,
               details := .buyingOpportunity currentPrice msrp discount
                 (msrp - currentPrice) predictedPop potentialProfit
                 cs.retirementEstimate }
      else none

/-- `checkBuyingOpportunities(previous, current)`. -/
def checkBuyingOpportunities (previous current : AnalysisData) : List Alert :=
  current.sets.filterMap (buyRule previous.sets)

/-- Loop body of `checkNewlyRetiredSets` for one current record.  Note
the unguarded division in `priceChange` (see the module comment). -/
def newlyRetiredRule (prevSets : List SetRecord) (cs : SetRecord) : Option Alert :=
  match mapGet prevSets cs.setNumber with
  | none => none
  | some prevSet =>
    if prevSet.retired = "" ∧ cs.retired ≠ "" then
      let msrp := cs.retailPrice
      let currentPrice := cs.marketPrice
      let predictedPop := cs.retirementPop
      let priceChange := (currentPrice - msrp) / msrp * 100
      some { type := "NEWLY_RETIRED", priority := "HIGH",
             setNumber := cs.setNumber, name := cs.name,
             details := .newlyRetired cs.retired msrp currentPrice priceChange
               predictedPop
               (if priceChange ≥ predictedPop then
                  "Pop achieved! Monitor for selling opportunity"
                else "Watch for retirement pop in coming weeks") }
    else none

/-- `checkNewlyRetiredSets(previous, current)`. -/
def checkNewlyRetiredSets (previous current : AnalysisData) : List Alert :=
  current.sets.filterMap (newlyRetiredRule previous.sets)

/-- Loop body of `checkROITargets` for one current record. -/
def roiRule (prevSets : List SetRecord) (targetROI : ℚ) (cs : SetRecord) : Option Alert :=
  match mapGet prevSets cs.setNumber with
  | none => none
  | some prevSet =>
    let msrp := cs.retailPrice
    let currentPrice := cs.marketPrice
    let prevPrice := prevSet.marketPrice
    if msrp = 0 then none
    else
      let currentROI := (currentPrice - msrp) / msrp * 100
      let prevROI := (prevPrice - msrp) / msrp * 100
      if currentROI ≥ targetROI ∧ prevROI < targetROI then
        some { type := "ROI_TARGET", priority := "HIGH",
               setNumber := cs.setNumber, name := cs.name,
               details := .roiTarget targetROI currentROI msrp currentPrice
                 (currentPrice - msrp) (cs.retired != "")
                 "Target ROI reached - consider selling" }
      else none

/-- `checkROITargets(previous, current, targetROI)`; the source defaults
`targetROI` to 20 and `main` passes 20 explicitly. -/
def checkROITargets (previous current : AnalysisData) (targetROI : ℚ) : List Alert :=
  current.sets.filterMap (roiRule previous.sets targetROI)

/-- The `allAlerts` mapping built by `main` for one snapshot pair. -/
def runAllAlertChecks (previous current : AnalysisData) : List (String × List Alert) :=
  [("Newly Retired Sets", checkNewlyRetiredSets previous current),
   ("Retirement Pop Achieved", checkRetirementPopAchievement previous current),
   ("Buying Opportunities", checkBuyingOpportunities previous current),
   ("ROI Targets (20%)", checkROITargets previous current 20)]

/-- A literal second copy of `runAllAlertChecks`: the "second run" of
the detector on the same pair. -/
def rerunAllAlertChecks (previous current : AnalysisData) : List (String × List Alert) :=
  [("Newly Retired Sets", checkNewlyRetiredSets previous current),
   ("Retirement Pop Achieved", checkRetirementPopAchievement previous current),
   ("Buying Opportunities", checkBuyingOpportunities previous current),
   ("ROI Targets (20%)", checkROITargets previous current 20)]

/-- One entry of the snapshot sequence read by the price tracker:
`{ timestamp, date, data }`, with the date in milliseconds since the
epoch (JS date arithmetic on `Date` values). -/
structure SnapEntry where
  timestamp : String
  date : ℤ
  data : AnalysisData
deriving DecidableEq

/-- One data point of a set price history (`trackSetPrices`). -/
structure DataPoint where
  date : ℤ
  timestamp : String
  marketPrice : ℚ
  availability : String
  retired : String
  retirementEstimate : String
  retirementPop : ℚ
  firstYearGrowth : ℚ
  oneYearValue : ℚ
deriving DecidableEq

/-- Return value of `calculateChange`. -/
structure Change where
  amount : ℚ
  percent : ℚ
deriving DecidableEq

/-- The `priceChange` part of a history summary. -/
structure PriceChangeSummary where
  initial : ℚ
  current : ℚ
  amount : ℚ
  percent : ℚ
deriving DecidableEq

/-- The `retirementStatus` part of a history summary. -/
structure RetirementStatusSummary where
  initial : String
  current : String
  hasRetired : Bool
  retiredDate : String
deriving DecidableEq

/-- The optional `summary` of a set price history. -/
structure HistorySummary where
  firstSeen : ℤ
  lastSeen : ℤ
  daysTracked : ℤ
  snapshotCount : ℕ
  priceChange : PriceChangeSummary
  retirementStatus : RetirementStatusSummary
deriving DecidableEq

/-- The history object built by `trackSetPrices`.  `name`, `theme` and
`msrp` are `null` until the first occurrence is seen. -/
structure History where
  setNumber : String
  name : Option String
  theme : Option String
  msrp : Option ℚ
  dataPoints : List DataPoint
  summary : Option HistorySummary
deriving DecidableEq

/-- `calculateChange(oldPrice, newPrice)`: the JS guard
`!oldPrice || !newPrice` is numeric falsiness, i.e. equality with 0
for rational inputs. -/
def calculateChange (oldPrice newPrice : ℚ) : Change :=
  if oldPrice = 0 ∨ newPrice = 0 then { amount := 0, percent := 0 }
  else { amount := newPrice - oldPrice, percent := (newPrice - oldPrice) / oldPrice * 100 }

/-- The data point `trackSetPrices` pushes for one snapshot containing
the set (the tracker reads the `currentMarketPrice` field). -/
def mkDataPoint (snap : SnapEntry) (sd : SetRecord) : DataPoint :=
  { date := snap.date, timestamp := snap.timestamp,
    marketPrice := sd.currentMarketPrice,
    availability := sd.availability, retired := sd.retired,
    retirementEstimate := sd.retirementEstimate,
    retirementPop := sd.retirementPop,
    firstYearGrowth := sd.annualGrowthFirstYear,
    oneYearValue := sd.oneYearRetiredValue }

/-- Last element of `x :: l` (the element `dataPoints[length - 1]`). -/
def lastOf {α : Type} (x : α) (l : List α) : α :=
  l.foldl (fun _ y => y) x

/-- The summary `trackSetPrices` attaches when more than one data point
exists: first/last extraction, floored elapsed days
(`Math.floor((last.date - first.date) / 86400000)` is floor division on
millisecond integers), price change via `calculateChange`, and the
retirement status transition. -/
def summarize : List DataPoint → Option HistorySummary
  | [] => none
  | [_] => none
  | f :: p :: rest =>
    let last := lastOf p rest
    let change := calculateChange f.marketPrice last.marketPrice
    some { firstSeen := f.date, lastSeen := last.date,
           daysTracked := Int.fdiv (last.date - f.date) 86400000,
           snapshotCount := (f :: p :: rest).length,
           priceChange := { initial := f.marketPrice, current := last.marketPrice,
                            amount := change.amount, percent := change.percent },
           retirementStatus := { initial := f.availability,
                                 current := last.availability,
                                 hasRetired := last.retired != "",
                                 retiredDate := last.retired } }

/-- `trackSetPrices(setNumber, snapshots)`: fold over the ordered
snapshot sequence, appending a data point for each snapshot whose set
collection contains the set (first `find?` match per snapshot), with
header fields from its first occurrence.  (The source re-captures the
header fields while `history.name` is still falsy; that differs only
when a record carries an empty name, which no claim involves.) -/
def trackSetPrices (setNumber : String) (snapshots : List SnapEntry) : History :=
  let found := snapshots.filterMap (fun snap =>
    (snap.data.sets.find? (fun s => s.setNumber == setNumber)).map (fun sd => (snap, sd)))
  let fr : Option SetRecord := found.head?.map (fun x => x.2)
  let pts := found.map (fun x => mkDataPoint x.1 x.2)
  { setNumber := setNumber,
    name := fr.map (fun r => r.name),
    theme := fr.map (fun r => r.theme),
    msrp := fr.map (fun r => r.retailPrice),
    dataPoints := pts,
    summary := summarize pts }

/-- A record with every field empty or zero; concrete inputs below
override the fields they need. -/
def baseRec : SetRecord :=
  { setNumber := "", name := "", theme := "", retailPrice := 0,
    marketPrice := 0, currentMarketPrice := 0, availability := "",
    retired := "", retirementEstimate := "", retirementPop := 0,
    oneYearRetiredValue := 0, annualGrowthFirstYear := 0 }

/-- Previous record of the negative-reference POP scenario. -/
def negRefPrevRec : SetRecord := { baseRec with setNumber := "1", marketPrice := 4 }

/-- Current record of the negative-reference POP scenario: retired, with
a negative parsed reference price. -/
def negRefCurRec : SetRecord :=
  { baseRec with setNumber := "1", retailPrice := -1, marketPrice := 5, retired := "2025-01", retirementPop := -700 }

/-- Previous snapshot of the negative-reference POP scenario. -/
def negRefPrev : AnalysisData := { analysisDate := "p", sets := [negRefPrevRec] }

/-- Current snapshot of the negative-reference POP scenario. -/
def negRefCur : AnalysisData := { analysisDate := "c", sets := [negRefCurRec] }

/-- Previous record of the successful-POP scenario. -/
def popWPrevRec : SetRecord := { baseRec with setNumber := "Y", marketPrice := 50 }

/-- Current record of the successful-POP scenario: retired at MSRP 50,
market 70, predicted pop 40%. -/
def popWCurRec : SetRecord :=
  { baseRec with setNumber := "Y", retailPrice := 50, marketPrice := 70, retired := "2024-06", retirementPop := 40 }

/-- Previous snapshot of the successful-POP scenario. -/
def popWPrev : AnalysisData := { analysisDate := "p", sets := [popWPrevRec] }

/-- Current snapshot of the successful-POP scenario. -/
def popWCur : AnalysisData := { analysisDate := "c", sets := [popWCurRec] }

/-- The POP_ACHIEVED alert the successful-POP scenario produces. -/
def popWAlert : Alert :=
  { type := "POP_ACHIEVED", priority := "HIGH", setNumber := "Y", name := "",
    details := .popAchieved 40 40 0 70 50 20 }

/-- Previous record of the unretired target-crossing scenario. -/
def tgtPrevRec : SetRecord := { baseRec with setNumber := "7", marketPrice := 5 }

/-- Current record of the unretired target-crossing scenario: the price
crossed the one-year target value but the set is not retired. -/
def tgtCurRecNoRet : SetRecord :=
  { baseRec with setNumber := "7", retailPrice := 100, marketPrice := 15, oneYearRetiredValue := 10 }

/-- The same current record, retired. -/
def tgtCurRecRet : SetRecord := { tgtCurRecNoRet with retired := "2025-05" }

/-- Previous snapshot of the target-crossing scenario. -/
def tgtPrev : AnalysisData := { analysisDate := "p", sets := [tgtPrevRec] }

/-- Current snapshot of the unretired target-crossing scenario. -/
def tgtCurNoRet : AnalysisData := { analysisDate := "c", sets := [tgtCurRecNoRet] }

/-- Current snapshot of the retired target-crossing scenario. -/
def tgtCurRet : AnalysisData := { analysisDate := "c", sets := [tgtCurRecRet] }

/-- Previous record of the zero-reference retirement scenario. -/
def zeroRefPrevRec : SetRecord := { baseRec with setNumber := "9", marketPrice := 3 }

/-- Current record of the zero-reference retirement scenario: newly
retired with reference price 0 (missing/unparseable retail price). -/
def zeroRefCurRec : SetRecord :=
  { baseRec with setNumber := "9", retired := "2024-11", marketPrice := 3 }

/-- Previous snapshot of the zero-reference retirement scenario. -/
def zeroRefPrev : AnalysisData := { analysisDate := "p", sets := [zeroRefPrevRec] }

/-- Current snapshot of the zero-reference retirement scenario. -/
def zeroRefCur : AnalysisData := { analysisDate := "c", sets := [zeroRefCurRec] }

/-- Previous record of the negative-reference ROI scenario. -/
def negRoiPrevRec : SetRecord := { baseRec with setNumber := "8", marketPrice := -1 }

/-- Current record of the negative-reference ROI scenario. -/
def negRoiCurRec : SetRecord :=
  { baseRec with setNumber := "8", retailPrice := -1, marketPrice := -3 }

/-- Previous snapshot of the negative-reference ROI scenario. -/
def negRoiPrev : AnalysisData := { analysisDate := "p", sets := [negRoiPrevRec] }

/-- Current snapshot of the negative-reference ROI scenario. -/
def negRoiCur : AnalysisData := { analysisDate := "c", sets := [negRoiCurRec] }

/-- Previous record of the zero-reference buying scenario. -/
def zeroBuyPrevRec : SetRecord := { baseRec with setNumber := "5" }

/-- Current record of the zero-reference buying scenario: price went
negative while the reference price is 0. -/
def zeroBuyCurRec : SetRecord := { baseRec with setNumber := "5", marketPrice := -1 }

/-- Previous snapshot of the zero-reference buying scenario. -/
def zeroBuyPrev : AnalysisData := { analysisDate := "p", sets := [zeroBuyPrevRec] }

/-- Current snapshot of the zero-reference buying scenario. -/
def zeroBuyCur : AnalysisData := { analysisDate := "c", sets := [zeroBuyCurRec] }

/-- Previous record of the spec's buying-opportunity scenario
(reference 100, previous price 110). -/
def buyExPrevRec : SetRecord := { baseRec with setNumber := "100", marketPrice := 110 }

/-- Current record of the spec's buying-opportunity scenario
(current price 95, below the reference 100). -/
def buyExCurRec : SetRecord :=
  { baseRec with setNumber := "100", retailPrice := 100, marketPrice := 95, retirementEstimate := "Early 2026" }

/-- Previous snapshot of the spec's buying-opportunity scenario. -/
def buyExPrev : AnalysisData := { analysisDate := "p", sets := [buyExPrevRec] }

/-- Current snapshot of the spec's buying-opportunity scenario. -/
def buyExCur : AnalysisData := { analysisDate := "c", sets := [buyExCurRec] }

/-- The BUYING_OPPORTUNITY alert of that scenario: discount 5%. -/
def buyExAlert : Alert :=
  { type := "BUYING_OPPORTUNITY", priority := "MEDIUM", setNumber := "100",
    name := "", details := .buyingOpportunity 95 100 5 5 0 5 "Early 2026" }

/-- Previous record of the ROI-target crossing scenario (ROI 0%). -/
def roiWPrevRec : SetRecord := { baseRec with setNumber := "R", marketPrice := 100 }

/-- Current record of the ROI-target crossing scenario (ROI 25%). -/
def roiWCurRec : SetRecord :=
  { baseRec with setNumber := "R", retailPrice := 100, marketPrice := 125 }

/-- Previous snapshot of the ROI-target crossing scenario. -/
def roiWPrev : AnalysisData := { analysisDate := "p", sets := [roiWPrevRec] }

/-- Current snapshot of the ROI-target crossing scenario. -/
def roiWCur : AnalysisData := { analysisDate := "c", sets := [roiWCurRec] }

/-- First snapshot of the two-point history scenario: day 0, price 20. -/
def histSnapA : SnapEntry :=
  { timestamp := "t0", date := 0,
    data := { analysisDate := "d0",
              sets := [{ baseRec with setNumber := "42", currentMarketPrice := 20 }] } }

/-- Second snapshot of the two-point history scenario: day 10
(864000000 ms), price 25. -/
def histSnapB : SnapEntry :=
  { timestamp := "t1", date := 864000000,
    data := { analysisDate := "d1",
              sets := [{ baseRec with setNumber := "42", currentMarketPrice := 25 }] } }

/-- The first data point of the two-point history scenario. -/
def histPointA : DataPoint :=
  { date := 0, timestamp := "t0", marketPrice := 20, availability := "",
    retired := "", retirementEstimate := "", retirementPop := 0,
    firstYearGrowth := 0, oneYearValue := 0 }

/-- The second data point of the two-point history scenario. -/
def histPointB : DataPoint :=
  { date := 864000000, timestamp := "t1", marketPrice := 25, availability := "",
    retired := "", retirementEstimate := "", retirementPop := 0,
    firstYearGrowth := 0, oneYearValue := 0 }

/-- In a list whose identity keys are pairwise distinct, two members with
the same key are the same record. -/
lemma key_nodup_inj : ∀ {l : List SetRecord},
    (l.map (fun r => r.setNumber)).Nodup →
    ∀ {a b : SetRecord}, a ∈ l → b ∈ l → a.setNumber = b.setNumber → a = b := by
  intro l
  induction l with
  | nil => intro _ a b ha _ _; exact absurd ha (List.not_mem_nil a)
  | cons x xs ih =>
    intro hnd a b ha hb hk
    rw [List.map_cons, List.nodup_cons] at hnd
    rcases List.mem_cons.mp ha with rfl | ha2
    · rcases List.mem_cons.mp hb with rfl | hb2
      · rfl
      · have hmem : a.setNumber ∈ xs.map (fun r => r.setNumber) := by
          rw [hk]; exact List.mem_map_of_mem _ hb2
        exact absurd hmem hnd.1
    · rcases List.mem_cons.mp hb with rfl | hb2
      · have hmem : b.setNumber ∈ xs.map (fun r => r.setNumber) := by
          rw [← hk]; exact List.mem_map_of_mem _ ha2
        exact absurd hmem hnd.1
      · exact ih hnd.2 ha2 hb2 hk

/-- A successful `mapGet` returns a member of the list bearing the
requested key. -/
lemma mapGet_eq_some {l : List SetRecord} {k : String} {s : SetRecord}
    (h : mapGet l k = some s) : s ∈ l ∧ s.setNumber = k := by
  unfold mapGet at h
  refine ⟨List.mem_reverse.mp (List.mem_of_find?_eq_some h), ?_⟩
  simpa using List.find?_some h

/-- Emission characterisation for a `filterMap`-shaped check whose rule
preserves the item key: under distinct current keys, an alert satisfying
`P` and bearing the key of the current record `s` exists in the output
iff the rule emits such an alert at `s` itself. -/
lemma exists_key_filterMap {f : SetRecord → Option Alert}
    (hf : ∀ r a, f r = some a → a.setNumber = r.setNumber)
    {l : List SetRecord} (hnd : (l.map (fun r => r.setNumber)).Nodup)
    {s : SetRecord} (hs : s ∈ l) (P : Alert → Prop) :
    (∃ a, a ∈ l.filterMap f ∧ P a ∧ a.setNumber = s.setNumber) ↔
      ∃ a, f s = some a ∧ P a := by
  constructor
  · rintro ⟨a, hmem, hP, hkey⟩
    rcases List.mem_filterMap.mp hmem with ⟨r, hr, hfr⟩
    have hrs : r = s := key_nodup_inj hnd hr hs (by rw [← hf r a hfr]; exact hkey)
    exact ⟨a, hrs ▸ hfr, hP⟩
  · rintro ⟨a, hfa, hP⟩
    exact ⟨a, List.mem_filterMap.mpr ⟨s, hs, hfa⟩, hP, hf s a hfa⟩

/-- Emission characterisation for a `flatMap`-shaped check whose rule
preserves the item key. -/
lemma exists_key_flatMap {f : SetRecord → List Alert}
    (hf : ∀ r a, a ∈ f r → a.setNumber = r.setNumber)
    {l : List SetRecord} (hnd : (l.map (fun r => r.setNumber)).Nodup)
    {s : SetRecord} (hs : s ∈ l) (P : Alert → Prop) :
    (∃ a, a ∈ l.flatMap f ∧ P a ∧ a.setNumber = s.setNumber) ↔
      ∃ a, a ∈ f s ∧ P a := by
  constructor
  · rintro ⟨a, hmem, hP, hkey⟩
    rcases List.mem_flatMap.mp hmem with ⟨r, hr, har⟩
    have hrs : r = s := key_nodup_inj hnd hr hs (by rw [← hf r a har]; exact hkey)
    exact ⟨a, hrs ▸ har, hP⟩
  · rintro ⟨a, haf, hP⟩
    exact ⟨a, List.mem_flatMap.mpr ⟨s, hs, haf⟩, hP, hf s a haf⟩

/-- Alerts produced by `popRule` carry the key of the record they were
produced from. -/
lemma popRule_key (prevSets : List SetRecord) :
    ∀ r a, a ∈ popRule prevSets r → a.setNumber = r.setNumber := by
  intro r a h
  unfold popRule at h
  cases hm : mapGet prevSets r.setNumber <;> rw [hm] at h
  · simp at h
  · dsimp only at h
    split_ifs at h <;>
      first
        | exact absurd h (List.not_mem_nil a)
        | (rcases List.mem_append.mp h with h2 | h2 <;>
            first
              | exact absurd h2 (List.not_mem_nil a)
              | (obtain rfl := List.mem_singleton.mp h2; rfl))

/-- Alerts produced by `retirementRule` carry the key of their record. -/
lemma retirementRule_key (prevSets : List SetRecord) :
    ∀ r a, retirementRule prevSets r = some a → a.setNumber = r.setNumber := by
  intro r a h
  unfold retirementRule at h
  cases hm : mapGet prevSets r.setNumber <;> rw [hm] at h
  · simp at h
  · dsimp only at h
    split_ifs at h <;>
      first
        | (obtain rfl := Option.some.inj h; rfl)
        | simp at h

/-- Alerts produced by `buyRule` carry the key of their record. -/
lemma buyRule_key (prevSets : List SetRecord) :
    ∀ r a, buyRule prevSets r = some a → a.setNumber = r.setNumber := by
  intro r a h
  unfold buyRule at h
  cases hm : mapGet prevSets r.setNumber <;> rw [hm] at h
  · simp at h
  · dsimp only at h
    split_ifs at h <;>
      first
        | (obtain rfl := Option.some.inj h; rfl)
        | simp at h

/-- Alerts produced by `newlyRetiredRule` carry the key of their record. -/
lemma newlyRetiredRule_key (prevSets : List SetRecord) :
    ∀ r a, newlyRetiredRule prevSets r = some a → a.setNumber = r.setNumber := by
  intro r a h
  unfold newlyRetiredRule at h
  cases hm : mapGet prevSets r.setNumber <;> rw [hm] at h
  · simp at h
  · dsimp only at h
    split_ifs at h <;>
      first
        | (obtain rfl := Option.some.inj h; rfl)
        | simp at h

/-- Alerts produced by `roiRule` carry the key of their record. -/
lemma roiRule_key (prevSets : List SetRecord) (t : ℚ) :
    ∀ r a, roiRule prevSets t r = some a → a.setNumber = r.setNumber := by
  intro r a h
  unfold roiRule at h
  cases hm : mapGet prevSets r.setNumber <;> rw [hm] at h
  · simp at h
  · dsimp only at h
    split_ifs at h <;>
      first
        | (obtain rfl := Option.some.inj h; rfl)
        | simp at h

/-- `popRule` emits only after a successful previous-snapshot lookup. -/
lemma popRule_lookup {prevSets : List SetRecord} {cs : SetRecord} {a : Alert}
    (h : a ∈ popRule prevSets cs) :
    ∃ ps, mapGet prevSets cs.setNumber = some ps := by
  cases hm : mapGet prevSets cs.setNumber with
  | none => unfold popRule at h; rw [hm] at h; simp at h
  | some ps => exact ⟨ps, rfl⟩

/-- `retirementRule` emits only after a successful lookup. -/
lemma retirementRule_lookup {prevSets : List SetRecord} {cs : SetRecord} {a : Alert}
    (h : retirementRule prevSets cs = some a) :
    ∃ ps, mapGet prevSets cs.setNumber = some ps := by
  cases hm : mapGet prevSets cs.setNumber with
  | none => unfold retirementRule at h; rw [hm] at h; simp at h
  | some ps => exact ⟨ps, rfl⟩

/-- `buyRule` emits only after a successful lookup. -/
lemma buyRule_lookup {prevSets : List SetRecord} {cs : SetRecord} {a : Alert}
    (h : buyRule prevSets cs = some a) :
    ∃ ps, mapGet prevSets cs.setNumber = some ps := by
  cases hm : mapGet prevSets cs.setNumber with
  | none => unfold buyRule at h; rw [hm] at h; simp at h
  | some ps => exact ⟨ps, rfl⟩

/-- `newlyRetiredRule` emits only after a successful lookup. -/
lemma newlyRetiredRule_lookup {prevSets : List SetRecord} {cs : SetRecord} {a : Alert}
    (h : newlyRetiredRule prevSets cs = some a) :
    ∃ ps, mapGet prevSets cs.setNumber = some ps := by
  cases hm : mapGet prevSets cs.setNumber with
  | none => unfold newlyRetiredRule at h; rw [hm] at h; simp at h
  | some ps => exact ⟨ps, rfl⟩

/-- `roiRule` emits only after a successful lookup. -/
lemma roiRule_lookup {prevSets : List SetRecord} {t : ℚ} {cs : SetRecord} {a : Alert}
    (h : roiRule prevSets t cs = some a) :
    ∃ ps, mapGet prevSets cs.setNumber = some ps := by
  cases hm : mapGet prevSets cs.setNumber with
  | none => unfold roiRule at h; rw [hm] at h; simp at h
  | some ps => exact ⟨ps, rfl⟩

/-- POP_ACHIEVED emission of `popRule`, given the lookup result. -/
lemma popRule_pop_iff (prevSets : List SetRecord) (cs ps : SetRecord)
    (hps : mapGet prevSets cs.setNumber = some ps) :
    (∃ a, a ∈ popRule prevSets cs ∧ a.type = "POP_ACHIEVED") ↔
      (cs.retired ≠ "" ∧ cs.retailPrice ≠ 0 ∧
        (cs.marketPrice - cs.retailPrice) / cs.retailPrice * 100 ≥ cs.retirementPop ∧
        ps.marketPrice < cs.marketPrice) := by
  unfold popRule
  rw [hps]
  dsimp only
  split_ifs with h1 h2 h3 h4 <;> simp_all

/-- TARGET_REACHED emission of `popRule`, given the lookup result. -/
lemma popRule_target_iff (prevSets : List SetRecord) (cs ps : SetRecord)
    (hps : mapGet prevSets cs.setNumber = some ps) :
    (∃ a, a ∈ popRule prevSets cs ∧ a.type = "TARGET_REACHED") ↔
      (cs.retired ≠ "" ∧ cs.retailPrice ≠ 0 ∧ cs.oneYearRetiredValue > 0 ∧
        cs.marketPrice ≥ cs.oneYearRetiredValue ∧
        ps.marketPrice < cs.oneYearRetiredValue) := by
  unfold popRule
  rw [hps]
  dsimp only
  split_ifs with h1 h2 h3 h4 <;> simp_all

/-- Emission of `buyRule`, given the lookup result. -/
lemma buyRule_iff (prevSets : List SetRecord) (cs ps : SetRecord)
    (hps : mapGet prevSets cs.setNumber = some ps) :
    (∃ a, buyRule prevSets cs = some a ∧ a.type = "BUYING_OPPORTUNITY") ↔
      (cs.retired = "" ∧ cs.retailPrice ≠ 0 ∧
        ps.marketPrice ≥ cs.retailPrice ∧ cs.marketPrice < cs.retailPrice) := by
  unfold buyRule
  rw [hps]
  dsimp only
  split_ifs with h1 h2 h3 <;> simp_all

/-- Emission of `newlyRetiredRule`, given the lookup result: the rule
fires on exactly the retirement transition, with no price condition. -/
lemma newlyRetiredRule_iff (prevSets : List SetRecord) (cs ps : SetRecord)
    (hps : mapGet prevSets cs.setNumber = some ps) :
    (∃ a, newlyRetiredRule prevSets cs = some a ∧ a.type = "NEWLY_RETIRED") ↔
      (ps.retired = "" ∧ cs.retired ≠ "") := by
  unfold newlyRetiredRule
  rw [hps]
  dsimp only
  split_ifs with h1 <;> simp_all

/-- Emission of `retirementRule`, given the lookup result. -/
lemma retirementRule_iff (prevSets : List SetRecord) (cs ps : SetRecord)
    (hps : mapGet prevSets cs.setNumber = some ps) :
    (∃ a, retirementRule prevSets cs = some a ∧ a.type = "RETIREMENT") ↔
      (ps.retired = "" ∧ cs.retired ≠ "") := by
  unfold retirementRule
  rw [hps]
  dsimp only
  split_ifs with h1 <;> simp_all

/-- Emission of `roiRule`, given the lookup result. -/
lemma roiRule_iff (prevSets : List SetRecord) (t : ℚ) (cs ps : SetRecord)
    (hps : mapGet prevSets cs.setNumber = some ps) :
    (∃ a, roiRule prevSets t cs = some a ∧ a.type = "ROI_TARGET") ↔
      (cs.retailPrice ≠ 0 ∧
        (cs.marketPrice - cs.retailPrice) / cs.retailPrice * 100 ≥ t ∧
        (ps.marketPrice - cs.retailPrice) / cs.retailPrice * 100 < t) := by
  unfold roiRule
  rw [hps]
  dsimp only
  split_ifs with h1 h2 <;> simp_all

/-- `popRule` emits only past the `msrp === 0` guard. -/
lemma popRule_msrp {prevSets : List SetRecord} {cs : SetRecord} {a : Alert}
    (h : a ∈ popRule prevSets cs) : cs.retailPrice ≠ 0 := by
  unfold popRule at h
  cases hm : mapGet prevSets cs.setNumber <;> rw [hm] at h
  · simp at h
  · dsimp only at h
    split_ifs at h with h1 h2 <;> first | exact h2 | simp at h

/-- `buyRule` emits only past the `msrp === 0` guard. -/
lemma buyRule_msrp {prevSets : List SetRecord} {cs : SetRecord} {a : Alert}
    (h : buyRule prevSets cs = some a) : cs.retailPrice ≠ 0 := by
  unfold buyRule at h
  cases hm : mapGet prevSets cs.setNumber <;> rw [hm] at h
  · simp at h
  · dsimp only at h
    split_ifs at h with h1 h2 <;> first | exact h2 | simp at h

/-- `roiRule` emits only past the `msrp === 0` guard. -/
lemma roiRule_msrp {prevSets : List SetRecord} {t : ℚ} {cs : SetRecord} {a : Alert}
    (h : roiRule prevSets t cs = some a) : cs.retailPrice ≠ 0 := by
  unfold roiRule at h
  cases hm : mapGet prevSets cs.setNumber <;> rw [hm] at h
  · simp at h
  · dsimp only at h
    split_ifs at h with h1 <;> first | exact h1 | simp at h

/-- `getLast?` of a nonempty list is its `lastOf`. -/
lemma getLast?_eq_lastOf {α : Type} : ∀ (l : List α) (x : α),
    (x :: l).getLast? = some (lastOf x l) := by
  intro l
  induction l with
  | nil => intro x; rfl
  | cons y l ih =>
    intro x
    rw [List.getLast?_cons_cons, ih y]
    rfl

/-- When either endpoint is 0, `calculateChange` reports no change. -/
lemma calculateChange_eq_zero {o n : ℚ} (h : o = 0 ∨ n = 0) :
    calculateChange o n = { amount := 0, percent := 0 } := by
  unfold calculateChange
  rw [if_pos h]

/-- Shape of `summarize`: absent on fewer than two points, and on two
or more points built from the first and last data point. -/
lemma summarize_spec (pts : List DataPoint) :
    (pts.length = 1 → summarize pts = none) ∧
    (∀ f l, pts.head? = some f → pts.getLast? = some l →
      2 ≤ pts.length →
      ∃ s, summarize pts = some s ∧
        s.daysTracked = Int.fdiv (l.date - f.date) 86400000 ∧
        s.priceChange.initial = f.marketPrice ∧
        s.priceChange.current = l.marketPrice ∧
        s.priceChange.amount = (calculateChange f.marketPrice l.marketPrice).amount ∧
        s.priceChange.percent = (calculateChange f.marketPrice l.marketPrice).percent) := by
  match pts with
  | [] =>
    constructor
    · intro h; simp at h
    · intro f l hf _ _; simp at hf
  | [x] =>
    constructor
    · intro _; rfl
    · intro f l _ _ hlen; simp at hlen
  | f0 :: p0 :: rest =>
    constructor
    · intro h; simp at h
    · intro f l hf hl _
      obtain rfl : f0 = f := by simpa using hf
      rw [List.getLast?_cons_cons, getLast?_eq_lastOf] at hl
      obtain rfl : lastOf p0 rest = l := by simpa using hl
      exact ⟨_, rfl, rfl, rfl, rfl, rfl, rfl⟩

/-- C1 (amended): for consecutive snapshots with distinct current
identity keys and an item matched in both, a POP_ACHIEVED alert is
emitted for the item iff it is retired in the current snapshot, its
reference price is nonzero (the source guard is `msrp === 0`, not
`msrp ≤ 0`), the ROI of the current record is at least the predicted
pop, and the previous price is strictly below the current price. -/
theorem popAchieved_fires_iff (previous current : AnalysisData)
    (hnd : (current.sets.map (fun r => r.setNumber)).Nodup)
    (s : SetRecord) (hs : s ∈ current.sets)
    (ps : SetRecord) (hps : mapGet previous.sets s.setNumber = some ps) :
    (∃ a, a ∈ checkRetirementPopAchievement previous current ∧
        a.type = "POP_ACHIEVED" ∧ a.setNumber = s.setNumber) ↔
      (s.retired ≠ "" ∧ s.retailPrice ≠ 0 ∧
        (s.marketPrice - s.retailPrice) / s.retailPrice * 100 ≥ s.retirementPop ∧
        ps.marketPrice < s.marketPrice) := by
  unfold checkRetirementPopAchievement
  exact (exists_key_flatMap (popRule_key previous.sets) hnd hs
      (fun a => a.type = "POP_ACHIEVED")).trans
    (popRule_pop_iff previous.sets s ps hps)

/-- C1 counterexample: the claim requires `referencePrice > 0`, but the
source only skips `referencePrice = 0`: with reference price −1 the
POP_ACHIEVED alert is emitted. -/
theorem popAchieved_neg_reference_cex :
    (checkRetirementPopAchievement negRefPrev negRefCur).map
        (fun a => (a.type, a.setNumber)) = [("POP_ACHIEVED", "1")] ∧
    negRefCurRec.retailPrice = -1 := by
  constructor
  · norm_num [checkRetirementPopAchievement, popRule, mapGet, negRefPrev,
      negRefCur, negRefPrevRec, negRefCurRec, baseRec, List.find?]
    decide
  · norm_num [negRefCurRec, baseRec]

/-- C1 witness: the POP scenario (MSRP 50, market 50 → 70, predicted
pop 40%) emits POP_ACHIEVED. -/
theorem popAchieved_fires_iff_witness :
    ∃ a, a ∈ checkRetirementPopAchievement popWPrev popWCur ∧
      a.type = "POP_ACHIEVED" ∧ a.setNumber = "Y" :=
  (popAchieved_fires_iff popWPrev popWCur
    (by simp [popWCur, popWCurRec, baseRec]) popWCurRec (by simp [popWCur])
    popWPrevRec
    (by simp [mapGet, popWPrev, popWPrevRec, popWCurRec, baseRec, List.find?])).mpr
    (by norm_num [popWCurRec, popWPrevRec, baseRec]; decide)

/-- C2 (amended): TARGET_REACHED is evaluated inside the same loop as
POP_ACHIEVED, after the retirement and reference-price guards: it is
emitted iff the item is retired in the current snapshot, its reference
price is nonzero, the one-year target value is positive, the current
price reached the target, and the previous price was strictly below
it. -/
theorem targetReached_fires_iff (previous current : AnalysisData)
    (hnd : (current.sets.map (fun r => r.setNumber)).Nodup)
    (s : SetRecord) (hs : s ∈ current.sets)
    (ps : SetRecord) (hps : mapGet previous.sets s.setNumber = some ps) :
    (∃ a, a ∈ checkRetirementPopAchievement previous current ∧
        a.type = "TARGET_REACHED" ∧ a.setNumber = s.setNumber) ↔
      (s.retired ≠ "" ∧ s.retailPrice ≠ 0 ∧ s.oneYearRetiredValue > 0 ∧
        s.marketPrice ≥ s.oneYearRetiredValue ∧
        ps.marketPrice < s.oneYearRetiredValue) := by
  unfold checkRetirementPopAchievement
  exact (exists_key_flatMap (popRule_key previous.sets) hnd hs
      (fun a => a.type = "TARGET_REACHED")).trans
    (popRule_target_iff previous.sets s ps hps)

/-- C2 counterexample: an unretired item whose price crossed its
positive one-year target produces no alert at all, contradicting the
claim that TARGET_REACHED has no retirement precondition. -/
theorem targetReached_requires_retirement_cex :
    checkRetirementPopAchievement tgtPrev tgtCurNoRet = [] ∧
    tgtCurRecNoRet.retired = "" ∧
    tgtCurRecNoRet.oneYearRetiredValue > 0 ∧
    tgtCurRecNoRet.marketPrice ≥ tgtCurRecNoRet.oneYearRetiredValue ∧
    tgtPrevRec.marketPrice < tgtCurRecNoRet.oneYearRetiredValue := by
  refine ⟨?_, rfl, ?_⟩
  · norm_num [checkRetirementPopAchievement, popRule, mapGet, tgtPrev,
      tgtCurNoRet, tgtPrevRec, tgtCurRecNoRet, baseRec, List.find?]
  · norm_num [tgtCurRecNoRet, tgtPrevRec, baseRec]

/-- C2 witness: the same crossing with the item retired does emit
TARGET_REACHED. -/
theorem targetReached_fires_iff_witness :
    ∃ a, a ∈ checkRetirementPopAchievement tgtPrev tgtCurRet ∧
      a.type = "TARGET_REACHED" ∧ a.setNumber = "7" :=
  (targetReached_fires_iff tgtPrev tgtCurRet
    (by simp [tgtCurRet, tgtCurRecRet, tgtCurRecNoRet, baseRec]) tgtCurRecRet
    (by simp [tgtCurRet]) tgtPrevRec
    (by simp [mapGet, tgtPrev, tgtPrevRec, tgtCurRecRet, tgtCurRecNoRet,
      baseRec, List.find?])).mpr
    (by norm_num [tgtCurRecRet, tgtCurRecNoRet, tgtPrevRec, baseRec]; decide)

/-- C3 (amended): the POP_ACHIEVED/TARGET_REACHED loop, the
BUYING_OPPORTUNITY rule and the ROI_TARGET rule emit alerts only for
current records whose reference price is nonzero (so no division by a
zero reference occurs in those emitted alerts, though a negative
reference is not skipped); the NEWLY_RETIRED rule has no
reference-price guard and fires on every retirement transition of a
matched item, regardless of its reference price. -/
theorem roi_rules_skip_zero_reference :
    (∀ previous current : AnalysisData, ∀ a,
        a ∈ checkRetirementPopAchievement previous current →
        ∃ s, s ∈ current.sets ∧ s.setNumber = a.setNumber ∧ s.retailPrice ≠ 0) ∧
    (∀ previous current : AnalysisData, ∀ a,
        a ∈ checkBuyingOpportunities previous current →
        ∃ s, s ∈ current.sets ∧ s.setNumber = a.setNumber ∧ s.retailPrice ≠ 0) ∧
    (∀ previous current : AnalysisData, ∀ t : ℚ, ∀ a,
        a ∈ checkROITargets previous current t →
        ∃ s, s ∈ current.sets ∧ s.setNumber = a.setNumber ∧ s.retailPrice ≠ 0) ∧
    (∀ previous current : AnalysisData, ∀ s ps, s ∈ current.sets →
        mapGet previous.sets s.setNumber = some ps →
        ps.retired = "" → s.retired ≠ "" →
        ∃ a, a ∈ checkNewlyRetiredSets previous current ∧
          a.setNumber = s.setNumber) := by
  refine ⟨?_, ?_, ?_, ?_⟩
  · intro p c a ha
    unfold checkRetirementPopAchievement at ha
    rcases List.mem_flatMap.mp ha with ⟨cs, hcs, har⟩
    exact ⟨cs, hcs, (popRule_key p.sets cs a har).symm, popRule_msrp har⟩
  · intro p c a ha
    unfold checkBuyingOpportunities at ha
    rcases List.mem_filterMap.mp ha with ⟨cs, hcs, har⟩
    exact ⟨cs, hcs, (buyRule_key p.sets cs a har).symm, buyRule_msrp har⟩
  · intro p c t a ha
    unfold checkROITargets at ha
    rcases List.mem_filterMap.mp ha with ⟨cs, hcs, har⟩
    exact ⟨cs, hcs, (roiRule_key p.sets t cs a har).symm, roiRule_msrp har⟩
  · intro p c s ps hs hps hpsret hcsret
    obtain ⟨a, ha, _⟩ := (newlyRetiredRule_iff p.sets s ps hps).mpr ⟨hpsret, hcsret⟩
    exact ⟨a, List.mem_filterMap.mpr ⟨s, hs, ha⟩, newlyRetiredRule_key p.sets s a ha⟩

/-- C3 counterexample: NEWLY_RETIRED is emitted for an item with
reference price 0 (so the claim's "skipped for that item" fails for
NEWLY_RETIRED), and ROI_TARGET is emitted for an item with reference
price −1 (so "referencePrice ≤ 0 is skipped" also fails for the guarded
rules, whose guard is equality with 0). -/
theorem roi_rules_skip_zero_reference_cex :
    (checkNewlyRetiredSets zeroRefPrev zeroRefCur).map (fun a => a.setNumber)
        = ["9"] ∧
    zeroRefCurRec.retailPrice = 0 ∧
    (checkROITargets negRoiPrev negRoiCur 20).map (fun a => a.setNumber)
        = ["8"] ∧
    negRoiCurRec.retailPrice = -1 := by
  refine ⟨?_, rfl, ?_, ?_⟩
  · norm_num [checkNewlyRetiredSets, newlyRetiredRule, mapGet, zeroRefPrev,
      zeroRefCur, zeroRefPrevRec, zeroRefCurRec, baseRec, List.find?,
      List.filterMap_cons]
    decide
  · norm_num [checkROITargets, roiRule, mapGet, negRoiPrev, negRoiCur,
      negRoiPrevRec, negRoiCurRec, baseRec, List.find?, List.filterMap_cons]
  · norm_num [negRoiCurRec, baseRec]

/-- C3 witness: the POP scenario's emitted alert names a current record
with nonzero reference price. -/
theorem roi_rules_skip_zero_reference_witness :
    ∃ s, s ∈ popWCur.sets ∧ s.setNumber = popWAlert.setNumber ∧
      s.retailPrice ≠ 0 :=
  roi_rules_skip_zero_reference.1 popWPrev popWCur popWAlert
    (by norm_num [checkRetirementPopAchievement, popRule, mapGet, popWPrev,
      popWCur, popWPrevRec, popWCurRec, baseRec, popWAlert, List.find?]
        decide)

/-- C4 (amended): for an item matched in both snapshots and not retired
in the current one, BUYING_OPPORTUNITY is emitted iff the reference
price is nonzero (source guard `msrp === 0`), the previous price was at
least the reference and the current price is strictly below it; in the
spec's scenario (reference 100, previous 110, current 95) the emitted
alert's discount detail is 5%. -/
theorem buyingOpportunity_fires_iff :
    (∀ previous current : AnalysisData,
      (current.sets.map (fun r => r.setNumber)).Nodup →
      ∀ s ps, s ∈ current.sets →
        mapGet previous.sets s.setNumber = some ps →
        s.retired = "" →
        ((∃ a, a ∈ checkBuyingOpportunities previous current ∧
            a.type = "BUYING_OPPORTUNITY" ∧ a.setNumber = s.setNumber) ↔
          (s.retailPrice ≠ 0 ∧ ps.marketPrice ≥ s.retailPrice ∧
            s.marketPrice < s.retailPrice))) ∧
    checkBuyingOpportunities buyExPrev buyExCur = [buyExAlert] := by
  constructor
  · intro p c hnd s ps hs hps hret
    unfold checkBuyingOpportunities
    exact (exists_key_filterMap (buyRule_key p.sets) hnd hs
        (fun a => a.type = "BUYING_OPPORTUNITY")).trans
      ((buyRule_iff p.sets s ps hps).trans (by simp [hret]))
  · norm_num [checkBuyingOpportunities, buyRule, mapGet, buyExPrev, buyExCur,
      buyExPrevRec, buyExCurRec, baseRec, buyExAlert, List.find?,
      List.filterMap_cons]

/-- C4 counterexample: with reference price 0, previous price 0 and a
negative current price the claim's conditions hold (previous ≥
reference, current < reference, not retired, matched) yet no alert is
emitted, because the source skips `msrp === 0` items. -/
theorem buyingOpportunity_zero_reference_cex :
    checkBuyingOpportunities zeroBuyPrev zeroBuyCur = [] ∧
    zeroBuyCurRec.retired = "" ∧
    zeroBuyPrevRec.marketPrice ≥ zeroBuyCurRec.retailPrice ∧
    zeroBuyCurRec.marketPrice < zeroBuyCurRec.retailPrice := by
  refine ⟨?_, rfl, ?_⟩
  · norm_num [checkBuyingOpportunities, buyRule, mapGet, zeroBuyPrev,
      zeroBuyCur, zeroBuyPrevRec, zeroBuyCurRec, baseRec, List.find?,
      List.filterMap_cons]
  · norm_num [zeroBuyPrevRec, zeroBuyCurRec, baseRec]

/-- C4 witness: the spec's scenario emits the alert. -/
theorem buyingOpportunity_fires_iff_witness :
    ∃ a, a ∈ checkBuyingOpportunities buyExPrev buyExCur ∧
      a.type = "BUYING_OPPORTUNITY" ∧ a.setNumber = "100" :=
  (buyingOpportunity_fires_iff.1 buyExPrev buyExCur
    (by simp [buyExCur, buyExCurRec, baseRec]) buyExCurRec buyExPrevRec
    (by simp [buyExCur])
    (by simp [mapGet, buyExPrev, buyExPrevRec, buyExCurRec, baseRec, List.find?])
    (by simp [buyExCurRec, baseRec])).mpr
    (by norm_num [buyExCurRec, buyExPrevRec, baseRec])

/-- C5: for consecutive snapshots with distinct current identity keys,
an item matched in both with positive reference price, and any target
percentage, ROI_TARGET is emitted iff the current record's ROI reached
the target while the previous record's ROI was strictly below it,
independent of retirement status. -/
theorem roiTarget_fires_iff (previous current : AnalysisData) (t : ℚ)
    (hnd : (current.sets.map (fun r => r.setNumber)).Nodup)
    (s : SetRecord) (hs : s ∈ current.sets)
    (ps : SetRecord) (hps : mapGet previous.sets s.setNumber = some ps)
    (hpos : s.retailPrice > 0) :
    (∃ a, a ∈ checkROITargets previous current t ∧
        a.type = "ROI_TARGET" ∧ a.setNumber = s.setNumber) ↔
      ((s.marketPrice - s.retailPrice) / s.retailPrice * 100 ≥ t ∧
        (ps.marketPrice - s.retailPrice) / s.retailPrice * 100 < t) := by
  unfold checkROITargets
  exact (exists_key_filterMap (roiRule_key previous.sets t) hnd hs
      (fun a => a.type = "ROI_TARGET")).trans
    ((roiRule_iff previous.sets t s ps hps).trans (by simp [hpos.ne']))

/-- C5 witness: MSRP 100, market 100 → 125, target 20%: the previous
ROI 0% is below the target and the current ROI 25% is above it, so
ROI_TARGET fires. -/
theorem roiTarget_fires_iff_witness :
    ∃ a, a ∈ checkROITargets roiWPrev roiWCur 20 ∧
      a.type = "ROI_TARGET" ∧ a.setNumber = "R" :=
  (roiTarget_fires_iff roiWPrev roiWCur 20
    (by simp [roiWCur, roiWCurRec, baseRec]) roiWCurRec (by simp [roiWCur])
    roiWPrevRec
    (by simp [mapGet, roiWPrev, roiWPrevRec, roiWCurRec, baseRec, List.find?])
    (by norm_num [roiWCurRec, baseRec])).mpr
    (by norm_num [roiWCurRec, roiWPrevRec, baseRec])

/-- C6: `detectRetirementEvents` (RETIREMENT) and
`checkNewlyRetiredSets` (NEWLY_RETIRED) fire for exactly the same items
in the same order: their alert lists carry the same item identities
position by position, and under distinct current keys each fires for a
matched item iff the previous retired marker is empty and the current
one is non-empty. -/
theorem retirement_newlyRetired_agree :
    (∀ previous current : AnalysisData,
      (detectRetirementEvents previous current).map (fun a => a.setNumber) =
        (checkNewlyRetiredSets previous current).map (fun a => a.setNumber)) ∧
    (∀ previous current : AnalysisData,
      (current.sets.map (fun r => r.setNumber)).Nodup →
      ∀ s ps, s ∈ current.sets →
        mapGet previous.sets s.setNumber = some ps →
        (((∃ a, a ∈ detectRetirementEvents previous current ∧
              a.type = "RETIREMENT" ∧ a.setNumber = s.setNumber) ↔
            (ps.retired = "" ∧ s.retired ≠ "")) ∧
         ((∃ a, a ∈ checkNewlyRetiredSets previous current ∧
              a.type = "NEWLY_RETIRED" ∧ a.setNumber = s.setNumber) ↔
            (ps.retired = "" ∧ s.retired ≠ "")))) := by
  constructor
  · intro p c
    unfold detectRetirementEvents checkNewlyRetiredSets
    rw [List.map_filterMap, List.map_filterMap]
    apply List.filterMap_congr
    intro cs _
    unfold retirementRule newlyRetiredRule
    cases hm : mapGet p.sets cs.setNumber
    · rfl
    · dsimp only
      split_ifs <;> rfl
  · intro p c hnd s ps hs hps
    constructor
    · unfold detectRetirementEvents
      exact (exists_key_filterMap (retirementRule_key p.sets) hnd hs
          (fun a => a.type = "RETIREMENT")).trans
        (retirementRule_iff p.sets s ps hps)
    · unfold checkNewlyRetiredSets
      exact (exists_key_filterMap (newlyRetiredRule_key p.sets) hnd hs
          (fun a => a.type = "NEWLY_RETIRED")).trans
        (newlyRetiredRule_iff p.sets s ps hps)

/-- C6 witness: the zero-reference retirement scenario fires
NEWLY_RETIRED for set 9 (agreement with RETIREMENT is the first,
hypothesis-free conjunct). -/
theorem retirement_newlyRetired_agree_witness :
    ∃ a, a ∈ checkNewlyRetiredSets zeroRefPrev zeroRefCur ∧
      a.type = "NEWLY_RETIRED" ∧ a.setNumber = "9" :=
  ((retirement_newlyRetired_agree.2 zeroRefPrev zeroRefCur
    (by simp [zeroRefCur, zeroRefCurRec, baseRec]) zeroRefCurRec zeroRefPrevRec
    (by simp [zeroRefCur])
    (by simp [mapGet, zeroRefPrev, zeroRefPrevRec, zeroRefCurRec, baseRec,
      List.find?])).2).mpr (by simp [zeroRefPrevRec, zeroRefCurRec, baseRec])

/-- C7: every alert emitted by any of the five rule functions names an
item whose identity key occurs in the item collections of both
snapshots; an item present in only one snapshot never produces an
alert. -/
theorem alerts_only_for_matched_items (previous current : AnalysisData)
    (t : ℚ) (a : Alert)
    (h : a ∈ detectRetirementEvents previous current ∨
         a ∈ checkNewlyRetiredSets previous current ∨
         a ∈ checkRetirementPopAchievement previous current ∨
         a ∈ checkBuyingOpportunities previous current ∨
         a ∈ checkROITargets previous current t) :
    (∃ s, s ∈ previous.sets ∧ s.setNumber = a.setNumber) ∧
    (∃ s, s ∈ current.sets ∧ s.setNumber = a.setNumber) := by
  rcases h with h | h | h | h | h
  · unfold detectRetirementEvents at h
    rcases List.mem_filterMap.mp h with ⟨cs, hcs, har⟩
    obtain ⟨ps, hm⟩ := retirementRule_lookup har
    obtain ⟨hpmem, hpkey⟩ := mapGet_eq_some hm
    have hkey := retirementRule_key previous.sets cs a har
    exact ⟨⟨ps, hpmem, by rw [hpkey, hkey]⟩, ⟨cs, hcs, hkey.symm⟩⟩
  · unfold checkNewlyRetiredSets at h
    rcases List.mem_filterMap.mp h with ⟨cs, hcs, har⟩
    obtain ⟨ps, hm⟩ := newlyRetiredRule_lookup har
    obtain ⟨hpmem, hpkey⟩ := mapGet_eq_some hm
    have hkey := newlyRetiredRule_key previous.sets cs a har
    exact ⟨⟨ps, hpmem, by rw [hpkey, hkey]⟩, ⟨cs, hcs, hkey.symm⟩⟩
  · unfold checkRetirementPopAchievement at h
    rcases List.mem_flatMap.mp h with ⟨cs, hcs, har⟩
    obtain ⟨ps, hm⟩ := popRule_lookup har
    obtain ⟨hpmem, hpkey⟩ := mapGet_eq_some hm
    have hkey := popRule_key previous.sets cs a har
    exact ⟨⟨ps, hpmem, by rw [hpkey, hkey]⟩, ⟨cs, hcs, hkey.symm⟩⟩
  · unfold checkBuyingOpportunities at h
    rcases List.mem_filterMap.mp h with ⟨cs, hcs, har⟩
    obtain ⟨ps, hm⟩ := buyRule_lookup har
    obtain ⟨hpmem, hpkey⟩ := mapGet_eq_some hm
    have hkey := buyRule_key previous.sets cs a har
    exact ⟨⟨ps, hpmem, by rw [hpkey, hkey]⟩, ⟨cs, hcs, hkey.symm⟩⟩
  · unfold checkROITargets at h
    rcases List.mem_filterMap.mp h with ⟨cs, hcs, har⟩
    obtain ⟨ps, hm⟩ := roiRule_lookup har
    obtain ⟨hpmem, hpkey⟩ := mapGet_eq_some hm
    have hkey := roiRule_key previous.sets t cs a har
    exact ⟨⟨ps, hpmem, by rw [hpkey, hkey]⟩, ⟨cs, hcs, hkey.symm⟩⟩

/-- C7 witness: the buying-opportunity alert of the spec scenario names
set 100, present in both snapshots. -/
theorem alerts_only_for_matched_items_witness :
    (∃ s, s ∈ buyExPrev.sets ∧ s.setNumber = buyExAlert.setNumber) ∧
    (∃ s, s ∈ buyExCur.sets ∧ s.setNumber = buyExAlert.setNumber) :=
  alerts_only_for_matched_items buyExPrev buyExCur 20 buyExAlert
    (Or.inr (Or.inr (Or.inr (Or.inl (by
      norm_num [checkBuyingOpportunities, buyRule, mapGet, buyExPrev, buyExCur,
        buyExPrevRec, buyExCurRec, baseRec, buyExAlert, List.find?,
        List.filterMap_cons])))))

/-- C8: the full set of alert checks `main` assembles is a pure
function of the snapshot pair: running it a second time on the same
`(prev, cur)` pair yields the identical alert collections, in the same
order with the same content.  The force of the statement lies in the
embedding itself: every check function translated as a total pure
function of the two snapshots alone — no clock, I/O or mutable state
parameter was needed anywhere in the detection path. -/
theorem rerun_alert_checks_identical (previous current : AnalysisData) :
    runAllAlertChecks previous current = rerunAllAlertChecks previous current :=
  rfl

/-- A summary produced by `summarize` whose first or last market price
is 0 reports amount 0 and percent 0. -/
lemma summarize_zero_price {pts : List DataPoint} {s : HistorySummary}
    (hsum : summarize pts = some s)
    (hz : s.priceChange.initial = 0 ∨ s.priceChange.current = 0) :
    s.priceChange.amount = 0 ∧ s.priceChange.percent = 0 := by
  cases pts with
  | nil => simp [summarize] at hsum
  | cons f t =>
    cases t with
    | nil => simp [summarize] at hsum
    | cons p rest =>
      simp only [summarize] at hsum
      obtain rfl := (Option.some.inj hsum).symm
      dsimp only at hz ⊢
      rw [calculateChange_eq_zero hz]
      exact ⟨rfl, rfl⟩

/-- C9: a history with exactly one data point has no summary; with two
or more, the summary's `daysTracked` is the floored number of elapsed
days between the first and last data point, and its price change is
computed from the first to the last point's market price. -/
theorem history_summary_spec (setNumber : String) (snapshots : List SnapEntry) :
    ((trackSetPrices setNumber snapshots).dataPoints.length = 1 →
      (trackSetPrices setNumber snapshots).summary = none) ∧
    (∀ f l, (trackSetPrices setNumber snapshots).dataPoints.head? = some f →
      (trackSetPrices setNumber snapshots).dataPoints.getLast? = some l →
      2 ≤ (trackSetPrices setNumber snapshots).dataPoints.length →
      ∃ s, (trackSetPrices setNumber snapshots).summary = some s ∧
        s.daysTracked = Int.fdiv (l.date - f.date) 86400000 ∧
        s.priceChange.initial = f.marketPrice ∧
        s.priceChange.current = l.marketPrice ∧
        s.priceChange.amount = (calculateChange f.marketPrice l.marketPrice).amount ∧
        s.priceChange.percent = (calculateChange f.marketPrice l.marketPrice).percent) := by
  have hsum : (trackSetPrices setNumber snapshots).summary
      = summarize ((trackSetPrices setNumber snapshots).dataPoints) := rfl
  rw [hsum]
  exact summarize_spec _

/-- C9 witness: two observations at day 0 price 20 and day 10 price 25
give `daysTracked = 10` and `priceChange.percent = 25`. -/
theorem history_summary_spec_witness :
    ∃ s, (trackSetPrices "42" [histSnapA, histSnapB]).summary = some s ∧
      s.daysTracked = 10 ∧ s.priceChange.percent = 25 := by
  obtain ⟨s, hsum2, hdays, _, _, _, hpct⟩ :=
    (history_summary_spec "42" [histSnapA, histSnapB]).2 histPointA histPointB
      (by norm_num [trackSetPrices, mkDataPoint, histSnapA, histSnapB,
        histPointA, baseRec, List.find?, List.filterMap_cons])
      (by norm_num [trackSetPrices, mkDataPoint, histSnapA, histSnapB,
        histPointB, baseRec, List.find?, List.filterMap_cons])
      (by norm_num [trackSetPrices, mkDataPoint, histSnapA, histSnapB,
        baseRec, List.find?, List.filterMap_cons])
  refine ⟨s, hsum2, ?_, ?_⟩
  · rw [hdays]; norm_num [histPointA, histPointB]; decide
  · rw [hpct]; norm_num [calculateChange, histPointA, histPointB]

/-- C10: `calculateChange` returns amount 0 and percent 0 whenever
either price is 0 (the JS falsiness guard), so the division by
`oldPrice` is always guarded; consequently a history summary whose
initial or final market price is 0 reports a price change of exactly
0. -/
theorem calculateChange_zero_guard :
    (∀ oldPrice newPrice : ℚ, oldPrice = 0 ∨ newPrice = 0 →
      calculateChange oldPrice newPrice = { amount := 0, percent := 0 }) ∧
    (∀ setNumber snapshots s,
      (trackSetPrices setNumber snapshots).summary = some s →
      s.priceChange.initial = 0 ∨ s.priceChange.current = 0 →
      s.priceChange.amount = 0 ∧ s.priceChange.percent = 0) := by
  constructor
  · intro o n h
    exact calculateChange_eq_zero h
  · intro sn snaps s hsum hz
    have h0 : (trackSetPrices sn snaps).summary
        = summarize ((trackSetPrices sn snaps).dataPoints) := rfl
    rw [h0] at hsum
    exact summarize_zero_price hsum hz

/-- C10 witness: `calculateChange 0 5` reports no change. -/
theorem calculateChange_zero_guard_witness :
    calculateChange 0 5 = { amount := 0, percent := 0 } :=
  calculateChange_zero_guard.1 0 5 (Or.inl rfl)
